import Mathlib

/-!
Verification of the comment-rewriting utility (script.py).

The script reads each eligible file, finds documentation-comment spans with a
regex, sends each span to a remote rewriting service, splices the replacements
back between the untouched gaps, writes the file once, optionally runs an
external formatter, and maintains two shared counters. We embed the per-file
processing, the run loop, the directory walker and the startup checks as pure
Lean functions. Effects are made explicit:

* file content is a list of characters;
* the result of the regex search (finditer) is a list of (start, stop)
  index pairs into the content, as in the source the matcher itself is a
  library regex engine and the claims quantify over its output;
* each fallible step carries an explicit outcome: reading may fail, the
  remote call for one span text may fail (improve_comments raising), the
  write may fail, and the formatter subprocess may exit non-zero (raising
  subprocess.CalledProcessError, which the code catches locally) or raise
  any other exception (e.g. FileNotFoundError when the formatter binary is
  absent), which only the outer per-file handler catches;
* the write is modelled as atomic: either the new content lands on disk or
  the disk is unchanged.
-/

namespace ImproveComments

/-- The shared counter dictionary results = {processed_files, modified_files}
(script.py line 105). -/
structure Results where
  processed_files : Nat
  modified_files : Nat
deriving DecidableEq

/-- The initial counters at run start (script.py line 105). -/
def initRes : Results :=
  { processed_files := 0, modified_files := 0 }

/-- Outcome of the dotnet-format subprocess call (script.py lines 84-89):
it may succeed, exit non-zero (subprocess.run with check=True raises
CalledProcessError, caught at lines 87-89), or raise any other exception
(not caught there, only by the outer per-file handler at line 93). -/
inductive FmtOutcome where
  | ok
  | calledProcessError
  | otherError
deriving DecidableEq

/-- Everything the environment decides about processing one file: the disk
content, whether the read raises, the list of (start, stop) spans that
comment_pattern.finditer returns on that content, the remote rewriting
oracle (improve_comments; none models the call raising), whether the write
raises, and the formatter outcome. -/
structure FileEnv where
  disk : List Char
  readOk : Bool
  spans : List (Nat × Nat)
  rewrite : List Char → Option (List Char)
  writeOk : Bool
  fmt : FmtOutcome

/-- Observable outcome of one process_file task: updated counters, the file
content on disk afterwards, whether a write was performed, the path logged
by the outer except handler (line 94) if it fired, and whether the local
CalledProcessError handler logged a formatting error (lines 87-89). -/
structure FileOutcome where
  results : Results
  disk : List Char
  wrote : Bool
  errLog : Option (List String)
  fmtErrLogged : Bool
deriving DecidableEq

/-- content[s:e] as Python slices it; match.group(0) of a match with
span (s, e) is exactly this slice. -/
def sliceOf (content : List Char) (s e : Nat) : List Char :=
  (content.drop s).take (e - s)

/-- The splicing loop of process_file (script.py lines 63-75): new_content
starts empty, last_index starts at 0; for each match the span text is sent
to the remote service, then new_content += content[last_index:start] +
improved and last_index = end; after the loop new_content +=
content[last_index:].  A failing remote call (none) aborts the whole loop,
as the exception aborts the for-loop in the source. -/
def spliceLoop (rw : List Char → Option (List Char)) (content : List Char) :
    List (Nat × Nat) → Nat → List Char → Option (List Char)
  | [], last_index, new_content => some (new_content ++ content.drop last_index)
  | (s, e) :: rest, last_index, new_content =>
    match rw (sliceOf content s e) with
    | none => none
    | some improved =>
      spliceLoop rw content rest e (new_content ++ sliceOf content last_index s ++ improved)

/-- The per-span results of the remote calls, in span order: some repls when
every call succeeds, none when any raises.  Used to state what the loop
produced span by span. -/
def rewriteResults (rw : List Char → Option (List Char)) (content : List Char) :
    List (Nat × Nat) → Option (List (List Char))
  | [] => some []
  | (s, e) :: rest =>
    match rw (sliceOf content s e), rewriteResults rw content rest with
    | some improved, some rest_res => some (improved :: rest_res)
    | _, _ => none

/-- Modelled from the spec (file rewriter contract): the interleaving
(untouched gap before span 1) + replacement 1 + (gap between span 1 and
span 2) + replacement 2 + ... + (untouched suffix after the last span),
with prev_end the end of the previous span (0 initially).  This is the
spec-side description that the code-side splicing loop is compared to. -/
def specInterleave (content : List Char) : List ((Nat × Nat) × List Char) → Nat → List Char
  | [], prev_end => content.drop prev_end
  | ((s, e), rep) :: rest, prev_end =>
    sliceOf content prev_end s ++ rep ++ specInterleave content rest e

/-- Well-formed, non-overlapping spans inside content of the given length:
each span starts no earlier than the low bound, does not end before it
starts, ends within the content, and the rest follows after its end.
re.finditer always returns spans of this shape. -/
def spansOk (content_len : Nat) : Nat → List (Nat × Nat) → Bool
  | _, [] => true
  | lo, (s, e) :: rest =>
    decide (lo ≤ s) && decide (s ≤ e) && decide (e ≤ content_len) && spansOk content_len e rest

/-- One process_file task (script.py lines 48-94), with every fallible step
explicit.  Order of effects follows the source: read (line 50), finditer
(line 56), early return on no matches (lines 60-61), the splice loop with
one remote call per span (lines 66-75), the single write together with the
modified_files increment (lines 78-81), the formatter subprocess with its
local CalledProcessError handler (lines 83-89), the processed_files
increment (line 91), and the outer except handler (lines 93-94) that logs
the path and returns normally. -/
def process_file (p : List String) (f : FileEnv) (r : Results) : FileOutcome :=
  if f.readOk then
    if f.spans = [] then
      { results := r, disk := f.disk, wrote := false, errLog := none, fmtErrLogged := false }
    else
      match spliceLoop f.rewrite f.disk f.spans 0 [] with
      | none =>
        { results := r, disk := f.disk, wrote := false, errLog := some p, fmtErrLogged := false }
      | some new_content =>
        if f.writeOk then
          match f.fmt with
          | FmtOutcome.ok =>
            { results := { processed_files := r.processed_files + 1,
                           modified_files := r.modified_files + 1 },
              disk := new_content, wrote := true, errLog := none, fmtErrLogged := false }
          | FmtOutcome.calledProcessError =>
            { results := { processed_files := r.processed_files + 1,
                           modified_files := r.modified_files + 1 },
              disk := new_content, wrote := true, errLog := none, fmtErrLogged := true }
          | FmtOutcome.otherError =>
            { results := { processed_files := r.processed_files,
                           modified_files := r.modified_files + 1 },
              disk := new_content, wrote := true, errLog := some p, fmtErrLogged := false }
        else
          { results := r, disk := f.disk, wrote := false, errLog := some p, fmtErrLogged := false }
  else
    { results := r, disk := f.disk, wrote := false, errLog := some p, fmtErrLogged := false }

/-- True when the task reaches the write and the write succeeds: the read
succeeded, at least one span was found, every remote call succeeded and the
write call did not raise.  Exactly these tasks increment modified_files. -/
def fileWriteSucceeds (f : FileEnv) : Bool :=
  f.readOk && decide (f.spans ≠ []) &&
    (spliceLoop f.rewrite f.disk f.spans 0 []).isSome && f.writeOk

/-- True when the task runs to the end of the try block: the write succeeded
and the formatter step did not raise an exception that escapes the local
handler.  Exactly these tasks increment processed_files. -/
def fileCompleted (f : FileEnv) : Bool :=
  fileWriteSucceeds f && decide (f.fmt ≠ FmtOutcome.otherError)

/-- True when the task fails recoverably before the write finished: the read
raises, or spans were found and either some remote call raises or the write
raises.  These are exactly the failures of reading, remote calling and
writing that the outer handler catches with the disk unchanged. -/
def failsRecoverably (f : FileEnv) : Bool :=
  !f.readOk ||
    (decide (f.spans ≠ []) &&
      ((spliceLoop f.rewrite f.disk f.spans 0 []).isNone || !f.writeOk))

/-- The run loop over the collected file paths (script.py lines 121-123):
one process_file task per path, all sharing the counters.  Counter updates
commute, so the sequential fold gives the totals of any schedule. -/
def runFiles (env : List String → FileEnv) (paths : List (List String)) (r : Results) : Results :=
  paths.foldl (fun acc p => (process_file p (env p) acc).results) r

mutual

/-- A directory tree entry: a plain file or a subdirectory with its own
entries, both carrying their name.  Paths are lists of name components. -/
inductive Entry : Type where
  | file : String → Entry
  | dir : String → EntryList → Entry

/-- The entry sequence of one directory (a mutual copy of List, so that
the walkers below are structurally recursive). -/
inductive EntryList : Type where
  | nil : EntryList
  | cons : Entry → EntryList → EntryList

end

/-- Python name.endswith applied to the fixed extension .cs
(script.py lines 111 and 117). -/
def endsWithCs (n : String) : Bool :=
  match n.toList.reverse with
  | 's' :: 'c' :: '.' :: _ => true
  | _ => false

mutual

/-- The recursive walk at one entry: a file is collected with its full path
when its name ends in .cs; a directory is walked into. -/
def entryWalkCs (pre : List String) : Entry → List (List String)
  | Entry.file n => if endsWithCs n then [pre ++ [n]] else []
  | Entry.dir n sub => walkCs (pre ++ [n]) sub

/-- The recursive walk (script.py lines 108-113): os.walk visits every
directory, and every file whose name ends in .cs is collected with its full
path.  Enumeration order inside a directory follows the entry order of the
tree, standing in for the scandir order of the OS; the claims are
insensitive to it. -/
def walkCs (pre : List String) : EntryList → List (List String)
  | EntryList.nil => []
  | EntryList.cons e rest => entryWalkCs pre e ++ walkCs pre rest

end

/-- The non-recursive listing (script.py lines 115-118): os.listdir shows
the immediate entries of the root only; the isfile check drops the
subdirectory entries and the extension check keeps the .cs files. -/
def listTopCs : EntryList → List (List String)
  | EntryList.nil => []
  | EntryList.cons (Entry.file n) rest =>
    (if endsWithCs n then [[n]] else []) ++ listTopCs rest
  | EntryList.cons (Entry.dir _ _) rest => listTopCs rest

mutual

/-- Modelled from the spec (walker contract): the files below one entry at
any depth, with no extension filter. -/
def entryAllFiles (pre : List String) : Entry → List (List String)
  | Entry.file n => [pre ++ [n]]
  | Entry.dir n sub => allFiles (pre ++ [n]) sub

/-- Modelled from the spec (walker contract): every file of the tree at any
depth, with no extension filter.  Spec-side reference for the recursive
walker. -/
def allFiles (pre : List String) : EntryList → List (List String)
  | EntryList.nil => []
  | EntryList.cons e rest => entryAllFiles pre e ++ allFiles pre rest

end

/-- Modelled from the spec (walker contract): the immediate file entries of
the root, as depth-one paths, with no extension filter.  Spec-side
reference for the non-recursive listing. -/
def topFiles : EntryList → List (List String)
  | EntryList.nil => []
  | EntryList.cons (Entry.file n) rest => [n] :: topFiles rest
  | EntryList.cons (Entry.dir _ _) rest => topFiles rest

/-- The last component of a path, naming the file itself. -/
def lastName (q : List String) : String :=
  q.reverse.headD ("")

/-- Outcome of one list_cs_files invocation: either the root directory does
not exist (the message is printed and the function returns, lines 98-100)
or the run completed with final counters. -/
inductive RunResult where
  | missingDir
  | completed (results : Results)
deriving DecidableEq

/-- Files processed in a run: none at all when the root was missing. -/
def processedOf : RunResult → Nat
  | RunResult.missingDir => 0
  | RunResult.completed res => res.processed_files

/-- list_cs_files (script.py lines 96-135): the isdir check, the collection
of eligible paths according to include_subdirectories, and the shared-pool
run over them.  fs is none when the root directory does not exist. -/
def list_cs_files (fs : Option EntryList) (include_subdirectories : Bool)
    (env : List String → FileEnv) : RunResult :=
  match fs with
  | none => RunResult.missingDir
  | some entries =>
    let files_to_process :=
      if include_subdirectories then walkCs [] entries else listTopCs entries
    RunResult.completed (runFiles env files_to_process initRes)

/-- The state of the world the script starts in: whether the interpreter
version check passes, whether the openai import succeeds, the value of the
OPENAI_API_KEY environment variable, and the command line. -/
structure StartEnv where
  pyVersionOk : Bool
  openaiInstalled : Bool
  apiKey : Option String
  argv : List String

/-- How startup ends (script.py lines 8-23 at module level, 137-147 under
main): sys.exit(1) at the version check, sys.exit(1) at the import check,
the uncaught ValueError for the missing key (CPython terminates with status
1 on an unhandled exception), sys.exit(1) after the usage message, or
reaching the list_cs_files call with the directory argument. -/
inductive StartOutcome where
  | exitVersionCheck
  | exitImportError
  | exitKeyMissing
  | exitUsage
  | runMain (directory : String)
deriving DecidableEq

/-- The startup sequence in source order: version check (lines 9-11), import
check (lines 14-18), key check (lines 21-23), then under main the argv
check (lines 139-141) and the call into list_cs_files (line 147). -/
def startup (e : StartEnv) : StartOutcome :=
  if e.pyVersionOk then
    if e.openaiInstalled then
      match e.apiKey with
      | none => StartOutcome.exitKeyMissing
      | some _ =>
        if e.argv.length < 2 then StartOutcome.exitUsage
        else StartOutcome.runMain (e.argv.getD 1 (""))
    else StartOutcome.exitImportError
  else StartOutcome.exitVersionCheck

/-- The process exit status of a startup outcome; none when startup handed
over to the directory run. -/
def exitCode : StartOutcome → Option Nat
  | StartOutcome.runMain _ => none
  | _ => some 1

/-- Whether the outcome reaches any file or directory access: only the
handover to list_cs_files does, every early exit happens before the first
filesystem call. -/
def accessesFilesystem : StartOutcome → Bool
  | StartOutcome.runMain _ => true
  | _ => false

/-- Whether the usage message of the argv check was printed. -/
def printsUsage : StartOutcome → Bool
  | StartOutcome.exitUsage => true
  | _ => false

/-! Concrete inputs used by the witnesses and counterexamples below. -/

/-- A file with content abcde and two spans, whose remote calls succeed by
prefixing an X to the span text; everything else succeeds as well. -/
def w1File : FileEnv :=
  { disk := ['a', 'b', 'c', 'd', 'e'], readOk := true, spans := [(1, 2), (3, 4)],
    rewrite := fun t => some ('X' :: t), writeOk := true, fmt := FmtOutcome.ok }

/-- A file in which the pattern finds no span. -/
def w2File : FileEnv :=
  { disk := ['a', 'b'], readOk := true, spans := [],
    rewrite := fun t => some t, writeOk := true, fmt := FmtOutcome.ok }

/-- A file whose rewrite and write succeed but whose formatter subprocess
raises an exception other than CalledProcessError (for instance the
formatter binary being absent). -/
def w3File : FileEnv :=
  { disk := ['a'], readOk := true, spans := [(0, 1)],
    rewrite := fun t => some t, writeOk := true, fmt := FmtOutcome.otherError }

/-- Scenario file A: two spans, all steps succeed. -/
def w4FileA : FileEnv :=
  { disk := ['a', 'b', 'c'], readOk := true, spans := [(0, 1), (2, 3)],
    rewrite := fun t => some ('R' :: t), writeOk := true, fmt := FmtOutcome.ok }

/-- Scenario file B: zero spans. -/
def w4FileB : FileEnv :=
  { disk := ['b'], readOk := true, spans := [],
    rewrite := fun t => some t, writeOk := true, fmt := FmtOutcome.ok }

/-- Scenario file nested, one directory below the root: one span, all steps
succeed. -/
def w4FileNested : FileEnv :=
  { disk := ['n'], readOk := true, spans := [(0, 1)],
    rewrite := fun t => some ('R' :: t), writeOk := true, fmt := FmtOutcome.ok }

/-- The scenario root: A.cs with two spans, B.cs with zero spans, and the
subdirectory C holding nested.cs with one span. -/
def w4Root : EntryList :=
  EntryList.cons (Entry.file ("A.cs"))
    (EntryList.cons (Entry.file ("B.cs"))
      (EntryList.cons
        (Entry.dir ("C") (EntryList.cons (Entry.file ("nested.cs")) EntryList.nil))
        EntryList.nil))

/-- The per-path environment of the scenario. -/
def w4Env (p : List String) : FileEnv :=
  if p = [("A.cs" : String)] then w4FileA
  else if p = [("B.cs" : String)] then w4FileB
  else w4FileNested

/-- A file whose remote call raises. -/
def w5File : FileEnv :=
  { disk := ['a', 'b'], readOk := true, spans := [(0, 1)],
    rewrite := fun _ => none, writeOk := true, fmt := FmtOutcome.ok }

/-- A run with one failing file next to a healthy sibling. -/
def w5Env (p : List String) : FileEnv :=
  if p = [("bad.cs" : String)] then w5File else w1File

/-- A file with two spans whose remote calls all raise. -/
def w6File : FileEnv :=
  { disk := ['a', 'b'], readOk := true, spans := [(0, 1), (1, 2)],
    rewrite := fun _ => none, writeOk := true, fmt := FmtOutcome.ok }

/-- A file whose rewrite and write succeed and whose formatter exits
non-zero, raising CalledProcessError. -/
def w9File : FileEnv :=
  { disk := ['a'], readOk := true, spans := [(0, 1)],
    rewrite := fun t => some t, writeOk := true, fmt := FmtOutcome.calledProcessError }

/-- A start state with the credential variable unset and the directory
argument missing. -/
def w7Start : StartEnv :=
  { pyVersionOk := true, openaiInstalled := true, apiKey := none,
    argv := [("script.py" : String)] }

/-! Helper lemmas shared by the claim theorems. -/

/-- The last component of a path built by appending one name. -/
theorem lastName_append (pre : List String) (n : String) :
    lastName (pre ++ [n]) = n := by
  simp [lastName, List.reverse_append]

/-- When every remote call of the loop succeeds with the given per-span
results, the splicing loop of the source computes exactly the spec-side
interleaving of gaps and replacements appended to its accumulator. -/
theorem spliceLoop_eq_specInterleave (rw : List Char → Option (List Char))
    (content : List Char) :
    ∀ (spans : List (Nat × Nat)) (repls : List (List Char)) (last_index : Nat)
      (acc : List Char),
      rewriteResults rw content spans = some repls →
      spliceLoop rw content spans last_index acc =
        some (acc ++ specInterleave content (spans.zip repls) last_index) := by
  intro spans
  induction spans with
  | nil =>
    intro repls last_index acc h
    simp [rewriteResults] at h
    subst h
    simp [spliceLoop, specInterleave]
  | cons hd tl ih =>
    intro repls last_index acc h
    obtain ⟨s, e⟩ := hd
    simp only [rewriteResults] at h
    cases hrw : rw (sliceOf content s e) with
    | none => rw [hrw] at h; simp at h
    | some improved =>
      rw [hrw] at h
      cases hrr : rewriteResults rw content tl with
      | none => rw [hrr] at h; simp at h
      | some rest_res =>
        rw [hrr] at h
        simp only [Option.some.injEq] at h
        subst h
        simp only [spliceLoop, hrw, specInterleave, List.zip_cons_cons]
        rw [ih rest_res e (acc ++ sliceOf content last_index s ++ improved) hrr]
        simp [List.append_assoc, List.zip]

/-- If the remote call raises on the text of some span of the list, the
splicing loop cannot complete: either that span is reached and its call
fails, or an earlier call failed first. -/
theorem spliceLoop_none_of_mem (rw : List Char → Option (List Char))
    (content : List Char) :
    ∀ (spans : List (Nat × Nat)) (last_index : Nat) (acc : List Char) (s e : Nat),
      (s, e) ∈ spans → rw (sliceOf content s e) = none →
      spliceLoop rw content spans last_index acc = none := by
  intro spans
  induction spans with
  | nil => intro _ _ _ _ hmem _; simp at hmem
  | cons hd tl ih =>
    intro last_index acc s e hmem hnone
    obtain ⟨s0, e0⟩ := hd
    rcases List.mem_cons.mp hmem with heq | htl
    · cases heq
      simp only [spliceLoop, hnone]
    · simp only [spliceLoop]
      cases hrw : rw (sliceOf content s0 e0) with
      | none => rfl
      | some improved => exact ih e0 _ s e htl hnone

/-- How one task changes the modified_files counter: plus one exactly when
the write succeeds. -/
theorem process_file_modified (p : List String) (f : FileEnv) (r : Results) :
    (process_file p f r).results.modified_files =
      r.modified_files + (if fileWriteSucceeds f then 1 else 0) := by
  unfold process_file fileWriteSucceeds
  cases hr : f.readOk
  · simp
  · by_cases hs : f.spans = []
    · simp [hs]
    · cases hsp : spliceLoop f.rewrite f.disk f.spans 0 [] with
      | none => simp [hs, hsp]
      | some nc =>
        cases hw : f.writeOk
        · simp [hs, hsp, hw]
        · cases hf : f.fmt <;> simp [hs, hsp, hw, hf]

/-- How one task changes the processed_files counter: plus one exactly when
the whole try block completes. -/
theorem process_file_processed (p : List String) (f : FileEnv) (r : Results) :
    (process_file p f r).results.processed_files =
      r.processed_files + (if fileCompleted f then 1 else 0) := by
  unfold process_file fileCompleted fileWriteSucceeds
  cases hr : f.readOk
  · simp
  · by_cases hs : f.spans = []
    · simp [hs]
    · cases hsp : spliceLoop f.rewrite f.disk f.spans 0 [] with
      | none => simp [hs, hsp]
      | some nc =>
        cases hw : f.writeOk
        · simp [hs, hsp, hw]
        · cases hf : f.fmt <;> simp [hs, hsp, hw, hf]

/-- Unfolding the run loop one file at a time. -/
theorem runFiles_cons (env : List String → FileEnv) (p : List String)
    (rest : List (List String)) (r : Results) :
    runFiles env (p :: rest) r =
      runFiles env rest (process_file p (env p) r).results := by
  simp [runFiles, List.foldl_cons]

/-- The final counters of a run: each counter is its initial value plus the
number of files whose task reached the corresponding increment. -/
theorem runFiles_counts (env : List String → FileEnv) :
    ∀ (paths : List (List String)) (r : Results),
      (runFiles env paths r).modified_files =
        r.modified_files +
          (paths.filter (fun p => fileWriteSucceeds (env p))).length ∧
      (runFiles env paths r).processed_files =
        r.processed_files +
          (paths.filter (fun p => fileCompleted (env p))).length := by
  intro paths
  induction paths with
  | nil => intro r; simp [runFiles]
  | cons p rest ih =>
    intro r
    rw [runFiles_cons]
    obtain ⟨ihm, ihp⟩ := ih (process_file p (env p) r).results
    constructor
    · rw [ihm, process_file_modified]
      by_cases h : fileWriteSucceeds (env p)
      all_goals simp [h, List.filter_cons]
      all_goals omega
    · rw [ihp, process_file_processed]
      by_cases h : fileCompleted (env p)
      all_goals simp [h, List.filter_cons]
      all_goals omega

mutual

/-- The walk below one entry keeps exactly the files whose name ends in
.cs, in enumeration order. -/
theorem entryWalkCs_eq_filter (pre : List String) (e : Entry) :
    entryWalkCs pre e =
      (entryAllFiles pre e).filter (fun q => endsWithCs (lastName q)) := by
  cases e with
  | file n =>
    by_cases h : endsWithCs n
    all_goals simp [entryWalkCs, entryAllFiles, lastName_append, h]
  | dir n sub =>
    simpa [entryWalkCs, entryAllFiles] using walkCs_eq_filter (pre ++ [n]) sub

/-- The recursive walk keeps exactly the files of the tree, at every depth,
whose name ends in .cs. -/
theorem walkCs_eq_filter (pre : List String) (es : EntryList) :
    walkCs pre es = (allFiles pre es).filter (fun q => endsWithCs (lastName q)) := by
  cases es with
  | nil => simp [walkCs, allFiles]
  | cons e rest =>
    simp [walkCs, allFiles, List.filter_append, entryWalkCs_eq_filter pre e,
      walkCs_eq_filter pre rest]

end

/-- The non-recursive listing keeps exactly the immediate file entries whose
name ends in .cs. -/
theorem listTopCs_eq_filter (es : EntryList) :
    listTopCs es = (topFiles es).filter (fun q => endsWithCs (lastName q)) := by
  cases es with
  | nil => simp [listTopCs, topFiles]
  | cons e rest =>
    cases e with
    | file n =>
      by_cases h : endsWithCs n
      all_goals simp [listTopCs, topFiles, listTopCs_eq_filter rest, h, lastName]
    | dir n sub => simp [listTopCs, topFiles, listTopCs_eq_filter rest]

/-- Every path of the non-recursive listing has exactly one component: the
listing never descends into a subdirectory. -/
theorem listTopCs_depth_one (es : EntryList) :
    ∀ q ∈ listTopCs es, q.length = 1 := by
  cases es with
  | nil => intro q hq; simp [listTopCs] at hq
  | cons e rest =>
    intro q hq
    cases e with
    | file n =>
      by_cases h : endsWithCs n
      · simp [listTopCs, h] at hq
        rcases hq with h1 | h2
        · subst h1; rfl
        · exact listTopCs_depth_one rest q h2
      · simp [listTopCs, h] at hq
        exact listTopCs_depth_one rest q hq
    | dir n sub =>
      simp only [listTopCs] at hq
      exact listTopCs_depth_one rest q hq

/-! The claim theorems. -/

/-- C1: For every file whose content contains N non-overlapping
documentation-comment spans, the content written back equals the
interleaving, in original left-to-right order, of the N+1 untouched gap
texts (prefix, inter-span gaps, suffix) with the N replacement texts
returned by the rewrite calls, one replacement per span. -/
theorem process_file_content_is_spec_interleaving
    (p : List String) (f : FileEnv) (r : Results) (repls : List (List Char))
    (_hok : spansOk f.disk.length 0 f.spans = true)
    (hread : f.readOk = true)
    (hne : f.spans ≠ [])
    (hrw : rewriteResults f.rewrite f.disk f.spans = some repls)
    (hwrite : f.writeOk = true) :
    (process_file p f r).disk = specInterleave f.disk (f.spans.zip repls) 0 := by
  have hloop := spliceLoop_eq_specInterleave f.rewrite f.disk f.spans repls 0 [] hrw
  cases hf : f.fmt
  all_goals simp [process_file, hread, hne, hloop, hwrite, hf]

/-- C1 witness: a concrete file with two spans, evaluated. -/
theorem process_file_content_is_spec_interleaving_witness :
    spansOk w1File.disk.length 0 w1File.spans = true ∧
    w1File.readOk = true ∧
    w1File.spans ≠ [] ∧
    rewriteResults w1File.rewrite w1File.disk w1File.spans =
      some [['X', 'b'], ['X', 'd']] ∧
    w1File.writeOk = true ∧
    (process_file [] w1File initRes).disk =
      specInterleave w1File.disk (w1File.spans.zip [['X', 'b'], ['X', 'd']]) 0 :=
  ⟨by decide, rfl, by decide, rfl, rfl,
    process_file_content_is_spec_interleaving [] w1File initRes
      [['X', 'b'], ['X', 'd']] (by decide) rfl (by decide) rfl rfl⟩

/-- C2: a file in which the pattern finds zero spans is left byte-identical
to the input, no write is performed, and the modified counter is not
incremented. -/
theorem no_spans_leaves_file_untouched (p : List String) (f : FileEnv) (r : Results)
    (h : f.spans = []) :
    (process_file p f r).disk = f.disk ∧
    (process_file p f r).wrote = false ∧
    (process_file p f r).results.modified_files = r.modified_files := by
  cases hr : f.readOk
  all_goals simp [process_file, hr, h]

/-- C2 witness: a concrete zero-span file, evaluated. -/
theorem no_spans_leaves_file_untouched_witness :
    w2File.spans = [] ∧
    ((process_file [] w2File initRes).disk = w2File.disk ∧
      (process_file [] w2File initRes).wrote = false ∧
      (process_file [] w2File initRes).results.modified_files =
        initRes.modified_files) :=
  ⟨rfl, no_spans_leaves_file_untouched [] w2File initRes rfl⟩

/-- C3 counterexample: one file whose rewrite and write succeed but whose
formatter subprocess raises something other than CalledProcessError (for
instance FileNotFoundError when the formatter binary is absent) ends the
run with modified_files = 1 and processed_files = 0, refuting
modified ≤ processed: the code increments modified_files at the write but
only reaches the processed_files increment after the formatter call. -/
theorem modified_can_exceed_processed :
    ¬ ((runFiles (fun _ => w3File) [[("A.cs" : String)]] initRes).modified_files ≤
        (runFiles (fun _ => w3File) [[("A.cs" : String)]] initRes).processed_files) := by
  decide

/-- C3 amended: after any run, unconditionally, processed_files is at most
the number of eligible files found and modified_files equals the number of
files whose write succeeded, so each such file is counted modified exactly
once; and provided no file raises a non-CalledProcessError exception in the
post-write formatting step, modified_files ≤ processed_files as well. -/
theorem run_counter_invariants (env : List String → FileEnv)
    (paths : List (List String)) :
    (runFiles env paths initRes).processed_files ≤ paths.length ∧
    (runFiles env paths initRes).modified_files =
      (paths.filter (fun p => fileWriteSucceeds (env p))).length ∧
    ((∀ p ∈ paths, (env p).fmt ≠ FmtOutcome.otherError) →
      (runFiles env paths initRes).modified_files ≤
        (runFiles env paths initRes).processed_files) := by
  obtain ⟨hm, hp⟩ := runFiles_counts env paths initRes
  refine ⟨?_, ?_, ?_⟩
  · rw [hp]
    have hlen := List.length_filter_le (fun p => fileCompleted (env p)) paths
    simpa [initRes] using hlen
  · rw [hm]
    simp [initRes]
  · intro hfmt
    have hfilters : paths.filter (fun p => fileCompleted (env p)) =
        paths.filter (fun p => fileWriteSucceeds (env p)) := by
      apply List.filter_congr
      intro p hpmem
      simp [fileCompleted, hfmt p hpmem]
    rw [hm, hp, hfilters]
    simp [initRes]

/-- C3 amended witness: a two-file run, evaluated; the formatter proviso of
the last conjunct is discharged at this input. -/
theorem run_counter_invariants_witness :
    (∀ p ∈ [[("A.cs" : String)], [("B.cs" : String)]],
      (w4Env p).fmt ≠ FmtOutcome.otherError) ∧
    ((runFiles w4Env [[("A.cs" : String)], [("B.cs" : String)]] initRes).processed_files ≤
        [[("A.cs" : String)], [("B.cs" : String)]].length ∧
      (runFiles w4Env [[("A.cs" : String)], [("B.cs" : String)]] initRes).modified_files =
        ([[("A.cs" : String)], [("B.cs" : String)]].filter
          (fun p => fileWriteSucceeds (w4Env p))).length ∧
      (runFiles w4Env [[("A.cs" : String)], [("B.cs" : String)]] initRes).modified_files ≤
        (runFiles w4Env [[("A.cs" : String)], [("B.cs" : String)]] initRes).processed_files) :=
  ⟨by decide,
    (run_counter_invariants w4Env [[("A.cs" : String)], [("B.cs" : String)]]).1,
    (run_counter_invariants w4Env [[("A.cs" : String)], [("B.cs" : String)]]).2.1,
    (run_counter_invariants w4Env [[("A.cs" : String)], [("B.cs" : String)]]).2.2
      (by decide)⟩

/-- C4 counterexample: in the scenario (A.cs with two spans, B.cs with zero
spans, C/nested.cs with one span, everything succeeding), the recursive run
does not end with processed = 3 and modified = 2: the zero-span file B
returns before the processed_files increment, so processed = 2. -/
theorem scenario_claimed_counts_refuted :
    list_cs_files (some w4Root) true w4Env ≠
      RunResult.completed { processed_files := 3, modified_files := 2 } := by
  decide

/-- C4 amended: the recursive run ends with processed = 2 and modified = 2
(A and nested; the zero-span file B is neither written nor counted, since a
file with no matches returns before the processed_files increment); the
non-recursive run ends with processed = 1 and modified = 1 (A only); the
recursive walk visits exactly A, B and C/nested while the non-recursive
listing never visits C/nested; and B is left untouched. -/
theorem scenario_run_counts :
    list_cs_files (some w4Root) true w4Env =
      RunResult.completed { processed_files := 2, modified_files := 2 } ∧
    list_cs_files (some w4Root) false w4Env =
      RunResult.completed { processed_files := 1, modified_files := 1 } ∧
    walkCs [] w4Root =
      [[("A.cs" : String)], [("B.cs" : String)],
        [("C" : String), ("nested.cs" : String)]] ∧
    ([("C" : String), ("nested.cs" : String)] ∉ listTopCs w4Root) ∧
    (process_file [("B.cs" : String)] w4FileB initRes).disk = w4FileB.disk ∧
    (process_file [("B.cs" : String)] w4FileB initRes).wrote = false := by
  decide

/-- C5: an exception while reading, remote-calling or writing one file is
caught at the task boundary: the path is logged, the file is skipped with
no content change and no counter change, and the run over the remaining
files proceeds exactly as if the failing file were absent. -/
theorem per_file_failure_contained (p : List String) (rest : List (List String))
    (env : List String → FileEnv) (r : Results)
    (hf : failsRecoverably (env p) = true) :
    (process_file p (env p) r).errLog = some p ∧
    (process_file p (env p) r).disk = (env p).disk ∧
    (process_file p (env p) r).wrote = false ∧
    (process_file p (env p) r).results = r ∧
    runFiles env (p :: rest) r = runFiles env rest r := by
  have key : (process_file p (env p) r).errLog = some p ∧
      (process_file p (env p) r).disk = (env p).disk ∧
      (process_file p (env p) r).wrote = false ∧
      (process_file p (env p) r).results = r := by
    unfold failsRecoverably at hf
    cases hr : (env p).readOk with
    | false => simp [process_file, hr]
    | true =>
      rw [hr] at hf
      simp only [Bool.not_true, Bool.false_or, Bool.and_eq_true] at hf
      obtain ⟨hs, hrest⟩ := hf
      have hsne : (env p).spans ≠ [] := of_decide_eq_true hs
      cases hsp : spliceLoop (env p).rewrite (env p).disk (env p).spans 0 [] with
      | none => simp [process_file, hr, hsne, hsp]
      | some nc =>
        rw [hsp] at hrest
        simp only [Option.isNone_some, Bool.false_or] at hrest
        have hw : (env p).writeOk = false := by
          cases hww : (env p).writeOk
          · rfl
          · rw [hww] at hrest; simp at hrest
        simp [process_file, hr, hsne, hsp, hw]
  refine ⟨key.1, key.2.1, key.2.2.1, key.2.2.2, ?_⟩
  rw [runFiles_cons, key.2.2.2]

/-- C5 witness: a failing file next to a healthy sibling, evaluated. -/
theorem per_file_failure_contained_witness :
    failsRecoverably (w5Env [("bad.cs" : String)]) = true ∧
    ((process_file [("bad.cs" : String)] (w5Env [("bad.cs" : String)]) initRes).errLog =
        some [("bad.cs" : String)] ∧
      (process_file [("bad.cs" : String)] (w5Env [("bad.cs" : String)]) initRes).disk =
        (w5Env [("bad.cs" : String)]).disk ∧
      (process_file [("bad.cs" : String)] (w5Env [("bad.cs" : String)]) initRes).wrote =
        false ∧
      (process_file [("bad.cs" : String)] (w5Env [("bad.cs" : String)]) initRes).results =
        initRes ∧
      runFiles w5Env [[("bad.cs" : String)], [("A.cs" : String)]] initRes =
        runFiles w5Env [[("A.cs" : String)]] initRes) :=
  ⟨by decide,
    per_file_failure_contained [("bad.cs" : String)] [[("A.cs" : String)]] w5Env initRes
      (by decide)⟩

/-- C6: for a file with multiple spans, if the remote call for any one of
its spans raises, the content on disk is unchanged and no write is
performed: all per-span calls and the splicing complete before the single
write. -/
theorem remote_failure_aborts_before_write (p : List String) (f : FileEnv)
    (r : Results) (s e : Nat)
    (hm : 2 ≤ f.spans.length)
    (hmem : (s, e) ∈ f.spans)
    (hraise : f.rewrite (sliceOf f.disk s e) = none) :
    (process_file p f r).disk = f.disk ∧ (process_file p f r).wrote = false := by
  have hloop := spliceLoop_none_of_mem f.rewrite f.disk f.spans 0 [] s e hmem hraise
  have hsne : f.spans ≠ [] := by
    intro h
    rw [h] at hm
    simp at hm
  cases hr : f.readOk
  all_goals simp [process_file, hr, hsne, hloop]

/-- C6 witness: a concrete two-span file whose remote calls raise. -/
theorem remote_failure_aborts_before_write_witness :
    2 ≤ w6File.spans.length ∧
    ((0, 1) ∈ w6File.spans) ∧
    w6File.rewrite (sliceOf w6File.disk 0 1) = none ∧
    ((process_file [] w6File initRes).disk = w6File.disk ∧
      (process_file [] w6File initRes).wrote = false) :=
  ⟨by decide, by decide, rfl,
    remote_failure_aborts_before_write [] w6File initRes 0 1 (by decide) (by decide) rfl⟩

/-- C7: if the credential environment variable is unset, startup terminates
with exit status 1 before any file or directory access: whichever startup
check fires, no pre-run exit reaches the filesystem, and with the key unset
the run branch is unreachable. -/
theorem missing_key_exits_before_io (e : StartEnv) (hk : e.apiKey = none) :
    exitCode (startup e) = some 1 ∧ accessesFilesystem (startup e) = false := by
  unfold startup
  cases hv : e.pyVersionOk
  · simp [exitCode, accessesFilesystem]
  · cases hi : e.openaiInstalled
    · simp [exitCode, accessesFilesystem]
    · simp [hk, exitCode, accessesFilesystem]

/-- C7 witness: the concrete start state with the key unset, evaluated. -/
theorem missing_key_exits_before_io_witness :
    w7Start.apiKey = none ∧
    (exitCode (startup w7Start) = some 1 ∧
      accessesFilesystem (startup w7Start) = false) :=
  ⟨rfl, missing_key_exits_before_io w7Start rfl⟩

/-- C8: the walker enumerates exactly the files with the .cs extension: the
recursive walk keeps exactly the extension-matching files of the tree at
every depth, the non-recursive listing keeps exactly the extension-matching
immediate file entries and every path it returns has depth one (it never
descends into subdirectories); a non-existent root yields the reported
missing-directory outcome with zero files processed and no exception. -/
theorem walker_enumerates_exactly_cs_files (es : EntryList) (b : Bool)
    (env : List String → FileEnv) :
    walkCs [] es = (allFiles [] es).filter (fun q => endsWithCs (lastName q)) ∧
    listTopCs es = (topFiles es).filter (fun q => endsWithCs (lastName q)) ∧
    (∀ q ∈ listTopCs es, q.length = 1) ∧
    list_cs_files none b env = RunResult.missingDir ∧
    processedOf (list_cs_files none b env) = 0 :=
  ⟨walkCs_eq_filter [] es, listTopCs_eq_filter es, listTopCs_depth_one es, rfl, rfl⟩

/-- C9: when the rewrite and write succeeded, a formatter subprocess exiting
non-zero is logged and execution continues: the written content and both
counters are exactly those of a run whose formatter succeeds, so the
rewrite is never rolled back and the modified count is unaffected by the
formatter outcome. -/
theorem formatter_failure_is_nonfatal (p : List String) (f : FileEnv) (r : Results)
    (hws : fileWriteSucceeds f = true)
    (hfmt : f.fmt = FmtOutcome.calledProcessError) :
    (process_file p f r).fmtErrLogged = true ∧
    (process_file p f r).wrote = true ∧
    (process_file p f r).disk = (process_file p { f with fmt := FmtOutcome.ok } r).disk ∧
    (process_file p f r).results =
      (process_file p { f with fmt := FmtOutcome.ok } r).results ∧
    (process_file p f r).results.modified_files = r.modified_files + 1 ∧
    (process_file p f r).results.processed_files = r.processed_files + 1 := by
  unfold fileWriteSucceeds at hws
  simp only [Bool.and_eq_true] at hws
  obtain ⟨⟨⟨hr, hs⟩, hsp⟩, hw⟩ := hws
  have hsne : f.spans ≠ [] := of_decide_eq_true hs
  obtain ⟨nc, hnc⟩ := Option.isSome_iff_exists.mp hsp
  simp [process_file, hr, hsne, hnc, hw, hfmt]

/-- C9 witness: a concrete file whose formatter exits non-zero, evaluated. -/
theorem formatter_failure_is_nonfatal_witness :
    fileWriteSucceeds w9File = true ∧
    w9File.fmt = FmtOutcome.calledProcessError ∧
    ((process_file [] w9File initRes).fmtErrLogged = true ∧
      (process_file [] w9File initRes).wrote = true ∧
      (process_file [] w9File initRes).disk =
        (process_file [] { w9File with fmt := FmtOutcome.ok } initRes).disk ∧
      (process_file [] w9File initRes).results =
        (process_file [] { w9File with fmt := FmtOutcome.ok } initRes).results ∧
      (process_file [] w9File initRes).results.modified_files =
        initRes.modified_files + 1 ∧
      (process_file [] w9File initRes).results.processed_files =
        initRes.processed_files + 1) :=
  ⟨by decide, rfl, formatter_failure_is_nonfatal [] w9File initRes (by decide) rfl⟩

/-- C10: the credential check runs before the command-line argument check:
whenever the key is unset (and the interpreter version and import checks
pass), startup ends with the credential error for every command line,
including one with the directory argument missing, and the usage message is
never printed. -/
theorem key_check_precedes_argv_check (e : StartEnv)
    (hv : e.pyVersionOk = true) (hi : e.openaiInstalled = true)
    (hk : e.apiKey = none) :
    startup e = StartOutcome.exitKeyMissing ∧ printsUsage (startup e) = false := by
  simp [startup, hv, hi, hk, printsUsage]

/-- C10 witness: the concrete start state whose command line lacks the
directory argument, evaluated. -/
theorem key_check_precedes_argv_check_witness :
    w7Start.pyVersionOk = true ∧
    w7Start.openaiInstalled = true ∧
    w7Start.apiKey = none ∧
    w7Start.argv.length < 2 ∧
    (startup w7Start = StartOutcome.exitKeyMissing ∧
      printsUsage (startup w7Start) = false) :=
  ⟨rfl, rfl, rfl, by decide,
    key_check_precedes_argv_check w7Start rfl rfl rfl⟩

end ImproveComments
